import Mathlib

/-!
Verification of the newsNative incremental fetch / cache / pagination engine
(`src/app/index.tsx` and the root layout) against its natural-language
specification.  The TypeScript source is shallowly embedded below: pure
request-building and list-projection code becomes Lean functions, the
react-query infinite-query cache becomes an explicit state machine with
stamped in-flight requests, and the axios transport becomes an `Except`
over an explicit transport outcome.
-/

namespace NewsNative

/-- Article shape, from the `Article` type in src/app/index.tsx (lines 28-38).
`source.name` is flattened to `sourceName`. -/
structure Article where
  url : String
  title : String
  description : String
  urlToImage : String
  publishedAt : String
  sourceName : String
  author : String
deriving DecidableEq, Repr

/-- `NewsResponse`, the value `fetchNews` resolves with (lines 40-43):
a page of articles plus the next page number computed as `page + 1`. -/
structure NewsResponse where
  articles : List Article
  nextPage : Nat
deriving DecidableEq, Repr

/-- The constant API key (line 23). -/
def API_KEY : String := "cd00e60d5e354c99a1d67fb99609d403"

/-- The closed category list offered by the picker (line 25). -/
def CATEGORIES : List String := ["all", "politics", "tech", "sports", "business"]

/-- The static category-to-sources lookup table (lines 46-51).  Absent keys
give `none`, matching an `undefined` property access in JavaScript. -/
def CATEGORY_SOURCES : String → Option String
  | "politics" => some "bbc-news,the-guardian-uk"
  | "tech" => some "techcrunch,wired"
  | "sports" => some "espn,bbc-sport"
  | "business" => some "bloomberg,financial-times"
  | _ => none

/-- The parameter record `fetchNews` sends with its single GET request
(lines 63-73).  `sources` is `none` when the key is absent from the params
object. -/
structure RequestParams where
  apiKey : String
  q : String
  page : Nat
  pageSize : Nat
  sources : Option String
deriving DecidableEq, Repr

/-- Request construction inside `fetchNews` (lines 63-73).
`q = searchTerm || 'news'`: the empty string is the only falsy string, so
an empty search term falls back to the literal `"news"`.  The `sources`
key is set only when `category !== 'all'` and the table lookup is truthy
(every table entry is a non-empty string, hence truthy). -/
def buildParams (category searchTerm : String) (page : Nat) : RequestParams :=
  { apiKey := API_KEY
    q := if searchTerm = "" then "news" else searchTerm
    page := page
    pageSize := 10
    sources := if category ≠ "all" then CATEGORY_SOURCES category else none }

/-- Outcome of the single `axios.get` transport call: either the transport
fails before an HTTP response exists, or an HTTP response arrives carrying
a status code and a parsed JSON body. -/
inductive TransportResult where
  | networkFailure : TransportResult
  | response (status : Nat) (articlesField : Option (List Article)) : TransportResult
deriving DecidableEq, Repr

/-- The errors axios itself raises: a connectivity error with no response,
or a rejection carrying the non-2xx status of the response.  `fetchNews`
has no try/catch, so these propagate unchanged to the caller. -/
inductive AxiosError where
  | network : AxiosError
  | badStatus (status : Nat) : AxiosError
deriving DecidableEq, Repr

/-- axios.get semantics: reject on transport failure, reject with the
status on a non-2xx response, otherwise resolve with the parsed body
(here: the `articles` field of `response.data`, which may be absent). -/
def axiosGet : TransportResult → Except AxiosError (Option (List Article))
  | TransportResult.networkFailure => Except.error AxiosError.network
  | TransportResult.response status body =>
      if 200 ≤ status ∧ status < 300 then Except.ok body
      else Except.error (AxiosError.badStatus status)

/-- The value `fetchNews` actually returns at runtime: `response.data.articles`
is read without any shape validation, so the articles field may be absent
(`none` models JavaScript `undefined`). -/
structure RawNewsResponse where
  articles : Option (List Article)
  nextPage : Nat
deriving DecidableEq, Repr

/-- `fetchNews` (lines 54-80) as a function of the transport outcome: it
awaits the single `axios.get`, propagates any rejection unchanged, and on
success returns `response.data.articles` (unvalidated) together with
`nextPage = page + 1`. -/
def fetchNews (page : Nat) (transport : TransportResult) :
    Except AxiosError RawNewsResponse :=
  match axiosGet transport with
  | Except.error e => Except.error e
  | Except.ok body => Except.ok { articles := body, nextPage := page + 1 }

/-- The list of network requests one `fetchNews` invocation issues: exactly
the single `axios.get` on line 75, whatever the outcome.  There is no retry
logic anywhere in the function. -/
def fetchNewsRequests (category searchTerm : String) (page : Nat) :
    List RequestParams :=
  [buildParams category searchTerm page]

/-- `getNextPageParam` (line 124): `lastPage.nextPage ?? undefined`.
`nextPage` is a number on every value `fetchNews` resolves with, so the
`??` fallback never fires and the result is always `some`. -/
def getNextPageParam (lastPage : NewsResponse) : Option Nat :=
  some lastPage.nextPage

/-- The react-query cache key from line 120:
`['news', activeCategory, searchTerm]`.  The search term is used exactly
as stored in component state, with no trimming, and no page number
appears in the key. -/
def queryKey (activeCategory searchTerm : String) : List String :=
  ["news", activeCategory, searchTerm]

/-- `allNews` (line 131): `data?.pages.flatMap((page) => page.articles) || []`,
the UI-facing item list, a plain flatMap over the cached pages. -/
def allNews (pages : List NewsResponse) : List Article :=
  pages.flatMap (fun page => page.articles)

/-- The `FlatList` `keyExtractor` (line 177): the template string
`url-publishedAt` used as the per-row rendering key. -/
def keyExtractor (item : Article) : String :=
  item.url ++ "-" ++ item.publishedAt

/-- The (url, publishedAt) pair of an article, the identity key the spec
designates for feed de-duplication. -/
def articleKey (item : Article) : String × String :=
  (item.url, item.publishedAt)

/-! ### Event model of the component and the query cache

`NewsApp` keeps three `useState` cells (`searchInput`, `searchTerm`,
`activeCategory`, lines 107-109) and delegates fetching to
`useInfiniteQuery` keyed by `queryKey` (line 120).  The react-query
library itself is a dependency, not part of this repository, so its
infinite-query cache is embedded as an explicit state machine, modelled
from the spec: a per-key store of fetched pages, each in-flight fetch
stamped at dispatch with the query identity that issued it, and each
resolution stored under the stamped key (spec section 4.3 concurrency
guard, section 9). -/

/-- A page stored in the query cache, stamped with the component state
(category, search term) and page parameter its fetch was dispatched with. -/
structure FetchedPage where
  category : String
  searchTerm : String
  pageParam : Nat
  response : NewsResponse
deriving DecidableEq, Repr

/-- An in-flight page fetch, stamped at dispatch time. -/
structure InFlight where
  category : String
  searchTerm : String
  pageParam : Nat
deriving DecidableEq, Repr

/-- Modelled from the spec: the query cache is an association list from
query keys to the ordered pages fetched for that key (react-query stores
each resolved page under the key of the query that dispatched it). -/
abbrev QueryCache := List (List String × List FetchedPage)

/-- Look a key up in the cache. -/
def lookupEntry : QueryCache → List String → Option (List FetchedPage)
  | [], _ => none
  | (k, pages) :: rest, key =>
      if k = key then some pages else lookupEntry rest key

/-- Append a fetched page to the entry of the given key, creating the
entry when absent.  Pages of an entry grow append-only, in resolution
order. -/
def appendEntry : QueryCache → List String → FetchedPage → QueryCache
  | [], key, pg => [(key, [pg])]
  | (k, pages) :: rest, key, pg =>
      if k = key then (k, pages ++ [pg]) :: rest
      else (k, pages) :: appendEntry rest key pg

/-- The whole observable state: the three `useState` cells, the query
cache, the in-flight fetches, and a log of every page request issued. -/
structure AppState where
  searchInput : String
  searchTerm : String
  activeCategory : String
  cache : QueryCache
  inflight : List InFlight
  requests : List RequestParams
deriving DecidableEq, Repr

/-- The cache key of the currently active query (line 120). -/
def currentKey (st : AppState) : List String :=
  queryKey st.activeCategory st.searchTerm

/-- The pages the UI observes: the cache entry of the current key (the
`data` react-query hands the component). -/
def observedPages (st : AppState) : Option (List FetchedPage) :=
  lookupEntry st.cache (currentKey st)

/-- The user-driven and network-driven events of the component. -/
inductive Event where
  /-- `onChangeText` on the search input (line 143). -/
  | typeText (s : String) : Event
  /-- `handleSearch` (lines 127-129), via submit or the search button. -/
  | submitSearch : Event
  /-- the category picker's `onValueChange` (line 156). -/
  | selectCategory (c : String) : Event
  /-- the initial page-1 fetch for the active query. -/
  | dispatchInitial : Event
  /-- `onEndReached`: `hasNextPage && fetchNextPage()` (line 179). -/
  | endReached : Event
  /-- an in-flight fetch resolves successfully with a page of articles. -/
  | resolve (f : InFlight) (articles : List Article) : Event
deriving DecidableEq, Repr

/-- Issue a page request for the active query: log the request built by
`fetchNews` and stamp the in-flight fetch with the current identity. -/
def dispatch (st : AppState) (pageParam : Nat) : AppState :=
  { st with
    inflight := st.inflight ++ [⟨st.activeCategory, st.searchTerm, pageParam⟩]
    requests := st.requests ++
      [buildParams st.activeCategory st.searchTerm pageParam] }

/-- Modelled from the spec: react-query's `hasNextPage` computation, as a
page parameter — `getNextPageParam` applied to the last observed page,
`none` when no page is observed yet. -/
def nextParamOf (st : AppState) : Option Nat :=
  (observedPages st).bind fun pages =>
    pages.getLast?.bind fun pg => getNextPageParam pg.response

/-- Modelled from the spec: one reaction step of the component plus the
query cache.  `typeText` touches only `searchInput`; `submitSearch`
copies `searchInput` into `searchTerm`; `endReached` fetches the next
page exactly when `nextParamOf` yields a next-page parameter
(react-query's `hasNextPage`); `resolve` stores the page under the key
stamped at dispatch, never under the current key when they differ. -/
def step : Event → AppState → AppState
  | Event.typeText s, st => { st with searchInput := s }
  | Event.submitSearch, st => { st with searchTerm := st.searchInput }
  | Event.selectCategory c, st => { st with activeCategory := c }
  | Event.dispatchInitial, st => dispatch st 1
  | Event.endReached, st =>
      match nextParamOf st with
      | none => st
      | some p => dispatch st p
  | Event.resolve f articles, st =>
      if f ∈ st.inflight then
        { st with
          inflight := st.inflight.erase f
          cache := appendEntry st.cache (queryKey f.category f.searchTerm)
            ⟨f.category, f.searchTerm, f.pageParam,
              { articles := articles, nextPage := f.pageParam + 1 }⟩ }
      else st

/-- The state before any interaction: empty input, empty submitted term,
category `"all"` (lines 107-109), nothing fetched. -/
def initialState : AppState :=
  { searchInput := ""
    searchTerm := ""
    activeCategory := "all"
    cache := []
    inflight := []
    requests := [] }

/-- Run an event sequence from the initial state. -/
def run (events : List Event) : AppState :=
  events.foldl (fun st e => step e st) initialState

/-- Cache consistency: every page stored under a key was fetched under
exactly that key's query identity. -/
def cacheConsistent (cache : QueryCache) : Prop :=
  ∀ entry ∈ cache, ∀ pg ∈ entry.2,
    queryKey pg.category pg.searchTerm = entry.1

/-- Concrete sample articles used in witness scenarios. -/
def artA : Article :=
  { url := "https://example.com/a", title := "A", description := ""
    urlToImage := "", publishedAt := "2024-01-01T00:00:00Z"
    sourceName := "SrcA", author := "" }

/-- Second concrete sample article. -/
def artB : Article :=
  { url := "https://example.com/b", title := "B", description := ""
    urlToImage := "", publishedAt := "2024-01-02T00:00:00Z"
    sourceName := "SrcB", author := "" }

/-- Third concrete sample article. -/
def artC : Article :=
  { url := "https://example.com/c", title := "C", description := ""
    urlToImage := "", publishedAt := "2024-01-03T00:00:00Z"
    sourceName := "SrcC", author := "" }

/-- The race scenario of the spec's testable property 1: dispatch query A
(category "all", empty term), submit and dispatch query B ("bitcoin")
while A is still in flight, resolve B first, then resolve A late. -/
def raceEvents : List Event :=
  [Event.dispatchInitial,
   Event.typeText "bitcoin",
   Event.submitSearch,
   Event.dispatchInitial,
   Event.resolve ⟨"all", "bitcoin", 1⟩ [artB],
   Event.resolve ⟨"all", "", 1⟩ [artA]]

/-- The page query B's fetch resolves with in `raceEvents`. -/
def pageB : FetchedPage :=
  ⟨"all", "bitcoin", 1, { articles := [artB], nextPage := 2 }⟩

/-- A run in which page 1 resolves with only 3 articles (fewer than the
page size 10) and the user then scrolls to the end of the list. -/
def shortPageEvents : List Event :=
  [Event.dispatchInitial,
   Event.resolve ⟨"all", "", 1⟩ [artA, artB, artC],
   Event.endReached]

/-- A state with exactly one resolved page, of one article, for the
initial query. -/
def onePageState : AppState :=
  run [Event.dispatchInitial, Event.resolve ⟨"all", "", 1⟩ [artA]]

/-- The single page stored in `onePageState`. -/
def pgA1 : FetchedPage :=
  ⟨"all", "", 1, { articles := [artA], nextPage := 2 }⟩

/-! ### Cache-consistency invariant -/

/-- A successful lookup exhibits a cache entry. -/
lemma lookupEntry_mem :
    ∀ (cache : QueryCache) (k : List String) (pages : List FetchedPage),
      lookupEntry cache k = some pages → (k, pages) ∈ cache := by
  intro cache
  induction cache with
  | nil => intro k pages h; simp [lookupEntry] at h
  | cons hd tl ih =>
      intro k pages h
      obtain ⟨k0, pages0⟩ := hd
      simp only [lookupEntry] at h
      by_cases hk : k0 = k
      · rw [if_pos hk] at h
        injection h with h2
        subst hk
        subst h2
        exact List.mem_cons_self _ _
      · rw [if_neg hk] at h
        exact List.mem_cons_of_mem _ (ih k pages h)

/-- Appending a page stamped with the entry's own key preserves cache
consistency. -/
lemma appendEntry_consistent (key : List String) (pg : FetchedPage)
    (hpg : queryKey pg.category pg.searchTerm = key) :
    ∀ cache : QueryCache, cacheConsistent cache →
      cacheConsistent (appendEntry cache key pg) := by
  intro cache
  induction cache with
  | nil =>
      intro _ entry hentry pg2 hpg2
      simp only [appendEntry, List.mem_singleton] at hentry
      subst hentry
      simp only [List.mem_singleton] at hpg2
      subst hpg2
      exact hpg
  | cons hd tl ih =>
      intro hc entry hentry pg2 hpg2
      obtain ⟨k0, pages0⟩ := hd
      have hchd := hc (k0, pages0) (List.mem_cons_self _ _)
      have hctl : cacheConsistent tl := fun e he => hc e (List.mem_cons_of_mem _ he)
      simp only [appendEntry] at hentry
      by_cases hk : k0 = key
      · rw [if_pos hk] at hentry
        rcases List.mem_cons.mp hentry with hentry | hentry
        · subst hentry
          subst hk
          simp only [List.mem_append, List.mem_singleton] at hpg2
          rcases hpg2 with hpg2 | hpg2
          · exact hchd pg2 hpg2
          · subst hpg2; exact hpg
        · exact hc entry (List.mem_cons_of_mem _ hentry) pg2 hpg2
      · rw [if_neg hk] at hentry
        rcases List.mem_cons.mp hentry with hentry | hentry
        · subst hentry; exact hchd pg2 hpg2
        · exact ih hctl entry hentry pg2 hpg2

/-- `dispatch` never touches the cache. -/
lemma dispatch_cache (st : AppState) (p : Nat) :
    (dispatch st p).cache = st.cache := rfl

/-- Every step preserves cache consistency: the only cache mutation is a
resolution, which stores the page under the key stamped at dispatch. -/
lemma step_consistent (e : Event) (st : AppState)
    (hc : cacheConsistent st.cache) : cacheConsistent (step e st).cache := by
  cases e with
  | typeText s => exact hc
  | submitSearch => exact hc
  | selectCategory c => exact hc
  | dispatchInitial => exact hc
  | endReached =>
      simp only [step]
      cases nextParamOf st with
      | none => exact hc
      | some p => exact hc
  | resolve f articles =>
      simp only [step]
      by_cases hf : f ∈ st.inflight
      · simp only [if_pos hf]
        exact appendEntry_consistent (queryKey f.category f.searchTerm)
          ⟨f.category, f.searchTerm, f.pageParam,
            { articles := articles, nextPage := f.pageParam + 1 }⟩
          rfl st.cache hc
      · simp only [if_neg hf]; exact hc

/-- Every reachable state has a consistent cache. -/
lemma run_consistent (events : List Event) :
    cacheConsistent (run events).cache := by
  suffices h : ∀ st : AppState, cacheConsistent st.cache →
      cacheConsistent (events.foldl (fun st e => step e st) st).cache by
    refine h initialState ?_
    intro entry he
    simp [initialState] at he
  induction events with
  | nil => intro st hc; exact hc
  | cons e tl ih =>
      intro st hc
      exact ih (step e st) (step_consistent e st hc)

/-- The query key determines the category and the (untrimmed) search
term: the key is injective in both components. -/
lemma queryKey_inj {c1 s1 c2 s2 : String}
    (h : queryKey c1 s1 = queryKey c2 s2) : c1 = c2 ∧ s1 = s2 := by
  simpa [queryKey] using h

/-! ### Claim theorems -/

/-- C2: after any sequence of events — query changes, dispatches and
resolutions interleaved in any order — every page observed for the
current query identity was fetched under exactly that identity: a page
resolved for a superseded query is stored under its own stamped key and
is never appended to the current query's cache entry. -/
theorem stale_result_isolation (events : List Event)
    (pages : List FetchedPage)
    (h : observedPages (run events) = some pages) :
    ∀ pg ∈ pages,
      pg.category = (run events).activeCategory ∧
      pg.searchTerm = (run events).searchTerm := by
  intro pg hpg
  have hmem := lookupEntry_mem _ _ _ h
  have hk := run_consistent events (currentKey (run events), pages) hmem pg hpg
  have hk2 : queryKey pg.category pg.searchTerm =
      queryKey (run events).activeCategory (run events).searchTerm := hk
  exact queryKey_inj hk2

/-- Witness for the race scenario: query A is dispatched, query B is
submitted and dispatched while A is in flight, B resolves first, A
resolves late; the cache observed afterwards holds exactly B's page, and
that page carries B's identity. -/
theorem stale_result_isolation_witness :
    observedPages (run raceEvents) = some [pageB] ∧
    pageB.category = (run raceEvents).activeCategory ∧
    pageB.searchTerm = (run raceEvents).searchTerm :=
  ⟨by decide,
   stale_result_isolation raceEvents [pageB] (by decide) pageB
     (List.mem_singleton.mpr rfl)⟩

/-- C10: typing in the search input updates only `searchInput`: the
submitted search term, the active category, the query identity, the
cache, the in-flight set and the request log are all unchanged until
`handleSearch` runs, which copies `searchInput` into `searchTerm`. -/
theorem type_text_frame (st : AppState) (s : String) :
    (step (Event.typeText s) st).searchInput = s ∧
    (step (Event.typeText s) st).searchTerm = st.searchTerm ∧
    (step (Event.typeText s) st).activeCategory = st.activeCategory ∧
    currentKey (step (Event.typeText s) st) = currentKey st ∧
    (step (Event.typeText s) st).cache = st.cache ∧
    (step (Event.typeText s) st).inflight = st.inflight ∧
    (step (Event.typeText s) st).requests = st.requests ∧
    (step Event.submitSearch st).searchTerm = st.searchInput :=
  ⟨rfl, rfl, rfl, rfl, rfl, rfl, rfl, rfl⟩

/-- C3 counterexample: `" news"` is `"news"` with one leading whitespace
character — the two differ only in surrounding whitespace, so trimming
would identify them — yet they produce different query keys: the key
uses the search term untrimmed. -/
theorem untrimmed_key_counterexample :
    Char.isWhitespace ' ' = true ∧
    (" " ++ "news" : String) = " news" ∧
    queryKey "all" " news" ≠ queryKey "all" "news" := by
  decide

/-- C3 amended: two queries map to the same cache key iff the category
and the search term match exactly, with no trimming or other
normalization; the page number is not a component of the key. -/
theorem query_identity_iff (c1 s1 c2 s2 : String) :
    queryKey c1 s1 = queryKey c2 s2 ↔ c1 = c2 ∧ s1 = s2 := by
  constructor
  · exact queryKey_inj
  · rintro ⟨h1, h2⟩
    rw [h1, h2]

/-- C6: for every category offered by the picker, a non-"all" category
sends the fixed source list of the static table as the `sources`
parameter of the page request, and the "all" category sends no `sources`
parameter at all. -/
theorem category_sources_param (c s : String) (p : Nat)
    (hc : c ∈ CATEGORIES) :
    (c ≠ "all" → (buildParams c s p).sources = CATEGORY_SOURCES c ∧
      (CATEGORY_SOURCES c).isSome = true) ∧
    (c = "all" → (buildParams c s p).sources = none) := by
  simp only [CATEGORIES, List.mem_cons, List.not_mem_nil, or_false] at hc
  rcases hc with rfl | rfl | rfl | rfl | rfl <;>
    refine ⟨fun h => ?_, fun h => ?_⟩ <;>
    simp_all [buildParams, CATEGORY_SOURCES]

/-- Witness: the spec's scenario — category "tech" yields the request
parameter `sources = "techcrunch,wired"`. -/
theorem category_sources_param_witness :
    ("tech" : String) ∈ CATEGORIES ∧
    (buildParams "tech" "" 1).sources = some "techcrunch,wired" := by
  refine ⟨by decide, ?_⟩
  have h := (category_sources_param "tech" "" 1 (by decide)).1 (by decide)
  rw [h.1]
  rfl

/-- C7: the free-text query parameter of every page request is the
literal "news" when the submitted search term is the empty string and
the search term itself, unchanged, otherwise; the pageSize parameter
always equals 10. -/
theorem query_term_fallback (c s : String) (p : Nat) :
    (s = "" → (buildParams c s p).q = "news") ∧
    (s ≠ "" → (buildParams c s p).q = s) ∧
    (buildParams c s p).pageSize = 10 := by
  refine ⟨fun h => ?_, fun h => ?_, rfl⟩
  · simp [buildParams, h]
  · simp [buildParams, h]

/-- Witness: an empty term falls back to "news", a non-empty term passes
through unchanged, and the page size is 10. -/
theorem query_term_fallback_witness :
    (buildParams "all" "" 1).q = "news" ∧
    (buildParams "all" "bitcoin" 1).q = "bitcoin" ∧
    (buildParams "all" "bitcoin" 1).pageSize = 10 :=
  ⟨(query_term_fallback "all" "" 1).1 rfl,
   (query_term_fallback "all" "bitcoin" 1).2.1 (by decide),
   (query_term_fallback "all" "bitcoin" 1).2.2⟩

/-- C9: every successful `fetchNews` call for page p resolves with
`nextPage = p + 1`, whatever the response body contained, and
`getNextPageParam` is `some` on every page — the `?? undefined` fallback
never fires, so the feed never reports exhaustion. -/
theorem next_page_always_succ (p : Nat) (t : TransportResult)
    (r : RawNewsResponse) (h : fetchNews p t = Except.ok r) :
    r.nextPage = p + 1 ∧
    ∀ resp : NewsResponse, getNextPageParam resp ≠ none := by
  constructor
  · unfold fetchNews at h
    split at h
    · exact Except.noConfusion h
    · injection h with h2
      subst h2
      rfl
  · intro resp
    simp [getNextPageParam]

/-- C1 counterexample: page 1 resolves with only 3 articles, fewer than
the page size 10, yet pagination does not become exhausted — the short
page's next-page parameter is `some 2`, not `none`, and the next
end-of-list event is not a no-op: it issues a second page request. -/
theorem short_page_still_fetches :
    (3 : Nat) < 10 ∧
    getNextPageParam { articles := [artA, artB, artC], nextPage := 2 }
      = some 2 ∧
    (run shortPageEvents).requests =
      [buildParams "all" "" 1, buildParams "all" "" 2] := by
  decide

/-- C1 amended: a fetched page with fewer than the page size (10)
articles does not produce exhaustion: its next-page parameter is still
`some` (the stored successor cursor), so a subsequent load-more is not a
no-op — it issues the request for the next page of the same query. -/
theorem short_page_no_exhaustion (st : AppState)
    (pages : List FetchedPage) (pg : FetchedPage)
    (hobs : observedPages st = some pages)
    (hlast : pages.getLast? = some pg)
    (_hshort : pg.response.articles.length < 10) :
    getNextPageParam pg.response = some pg.response.nextPage ∧
    (step Event.endReached st).requests =
      st.requests ++
        [buildParams st.activeCategory st.searchTerm
          pg.response.nextPage] := by
  have hnp : nextParamOf st = some pg.response.nextPage := by
    simp [nextParamOf, hobs, hlast, getNextPageParam]
  refine ⟨rfl, ?_⟩
  simp [step, hnp, dispatch]

/-- Witness: one resolved page of a single article (1 < 10 articles);
the next end-of-list event issues the request for page 2. -/
theorem short_page_no_exhaustion_witness :
    (observedPages onePageState = some [pgA1] ∧
      [pgA1].getLast? = some pgA1 ∧
      pgA1.response.articles.length < 10) ∧
    (getNextPageParam pgA1.response = some pgA1.response.nextPage ∧
      (step Event.endReached onePageState).requests =
        onePageState.requests ++
          [buildParams onePageState.activeCategory onePageState.searchTerm
            pgA1.response.nextPage]) :=
  ⟨⟨by decide, by decide, by decide⟩,
   short_page_no_exhaustion onePageState [pgA1] pgA1
     (by decide) (by decide) (by decide)⟩

/-- C4 counterexample: two cached pages each contain the same article;
the UI item list keeps both occurrences, so it is not deduplicated by
the (url, publishedAt) key. -/
theorem no_dedup_counterexample :
    allNews [{ articles := [artA], nextPage := 2 },
             { articles := [artA], nextPage := 3 }] = [artA, artA] ∧
    ¬ ((allNews [{ articles := [artA], nextPage := 2 },
                 { articles := [artA], nextPage := 3 }]).map
        articleKey).Nodup := by
  constructor
  · rfl
  · decide

/-- C4 amended: the UI-facing item list is the plain flattening of the
cached pages with no deduplication — every occurrence of an article is
kept, its total count being the sum of its per-page counts — and the
(url, publishedAt) pair appears only as the FlatList row key string
`url-publishedAt`, not as a dedup filter. -/
theorem flatten_preserves_duplicates (pages : List NewsResponse)
    (a : Article) :
    (allNews pages).count a =
      (pages.map fun p => p.articles.count a).sum ∧
    keyExtractor a = a.url ++ "-" ++ a.publishedAt := by
  refine ⟨?_, rfl⟩
  induction pages with
  | nil => rfl
  | cons p ps ih =>
      have h1 : allNews (p :: ps) = p.articles ++ allNews ps := rfl
      rw [h1, List.count_append, ih]
      simp

/-- C5: for a cache whose pages are numbered 1..n in ascending order
(the page at index i carries the successor cursor i + 2, i.e. it is page
i + 1), the flattened feed equals the concatenation of the pages'
article lists in that order: flattening is the list-concatenation
homomorphism over pages, preserving intra-page order with no
reordering. -/
theorem flatten_is_concat (pages : List NewsResponse)
    (_hnum : ∀ i : Fin pages.length, (pages.get i).nextPage = i.val + 2) :
    allNews pages = (pages.map NewsResponse.articles).flatten ∧
    allNews [] = ([] : List Article) ∧
    ∀ pg : NewsResponse,
      allNews (pages ++ [pg]) = allNews pages ++ pg.articles := by
  refine ⟨?_, rfl, fun pg => ?_⟩
  · simp [allNews, List.flatMap_def]
  · simp [allNews, List.flatMap_append]

/-- Witness: a two-page cache, pages numbered 1 and 2, flattens to the
ordered concatenation of its article lists. -/
theorem flatten_is_concat_witness :
    allNews [{ articles := [artA], nextPage := 2 },
             { articles := [artB, artC], nextPage := 3 }] =
      ([[artA], [artB, artC]] : List (List Article)).flatten :=
  (flatten_is_concat
    [{ articles := [artA], nextPage := 2 },
     { articles := [artB, artC], nextPage := 3 }]
    (by decide)).1

/-- C8 counterexample: a 2xx response whose body carries no parsable
`articles` array is not signalled as a malformed-response error — the
call succeeds, passing the absent field through unvalidated. -/
theorem malformed_response_ok :
    fetchNews 1 (TransportResult.response 200 none) =
      Except.ok { articles := none, nextPage := 2 } ∧
    (fetchNews 1 (TransportResult.response 200 none)).isOk = true := by
  constructor
  · rfl
  · rfl

/-- C8 amended: `fetchNews` issues exactly one network request per
invocation and never retries; a transport failure and a non-2xx response
propagate unchanged as axios's two error shapes (connectivity error and
status rejection); there is no response-shape validation, so a malformed
2xx body is returned as a success with the articles field absent rather
than as a distinct malformed-response error. -/
theorem fetch_error_propagation (category searchTerm : String)
    (p status : Nat) (body : Option (List Article)) :
    (fetchNewsRequests category searchTerm p).length = 1 ∧
    fetchNews p TransportResult.networkFailure =
      Except.error AxiosError.network ∧
    (¬(200 ≤ status ∧ status < 300) →
      fetchNews p (TransportResult.response status body) =
        Except.error (AxiosError.badStatus status)) ∧
    (200 ≤ status ∧ status < 300 →
      fetchNews p (TransportResult.response status body) =
        Except.ok { articles := body, nextPage := p + 1 }) := by
  refine ⟨rfl, rfl, fun h => ?_, fun h => ?_⟩
  · simp [fetchNews, axiosGet, h]
  · simp [fetchNews, axiosGet, h]

/-- Witness: the request list has length one; a network failure, a 500
rejection and a 200 success each map to the corresponding outcome. -/
theorem fetch_error_propagation_witness :
    (fetchNewsRequests "all" "" 1).length = 1 ∧
    fetchNews 1 TransportResult.networkFailure =
      Except.error AxiosError.network ∧
    fetchNews 1 (TransportResult.response 500 (some [artA])) =
      Except.error (AxiosError.badStatus 500) ∧
    fetchNews 1 (TransportResult.response 200 (some [artA])) =
      Except.ok { articles := some [artA], nextPage := 2 } :=
  ⟨(fetch_error_propagation "all" "" 1 500 (some [artA])).1,
   (fetch_error_propagation "all" "" 1 500 (some [artA])).2.1,
   (fetch_error_propagation "all" "" 1 500 (some [artA])).2.2.1
     (by decide),
   (fetch_error_propagation "all" "" 1 200 (some [artA])).2.2.2
     (by decide)⟩

/-- Witness: a successful page-5 fetch resolves with nextPage 6. -/
theorem next_page_always_succ_witness :
    fetchNews 5 (TransportResult.response 200 (some [artA])) =
      Except.ok { articles := some [artA], nextPage := 6 } ∧
    ({ articles := some [artA], nextPage := 6 } : RawNewsResponse).nextPage
      = 5 + 1 :=
  ⟨rfl,
   (next_page_always_succ 5 (TransportResult.response 200 (some [artA]))
     { articles := some [artA], nextPage := 6 } rfl).1⟩

end NewsNative
